import Mathlib

/-!
Shallow embedding of the hpp-fcl core headers
`include/hpp/fcl/collision_object.h` and `include/hpp/fcl/distance.h`.

Scalars (`FCL_REAL`, a C++ double) are modelled by `FReal`: either the
not-a-number sentinel or an exact rational value.  Arithmetic propagates
the sentinel and ordered comparisons involving it are false, matching
IEEE-754 semantics for the operations the headers use.  Equality of
`FReal` values is structural, so two not-a-number entries count as the
same value (the reading used when the spec says two sentinel matrices
are equal entry for entry).

Virtual const member functions of `CollisionGeometry` that derived
shapes may override (`computeCOM`, `computeMomentofInertia`,
`computeVolume`) are modelled as per-instance data fields: for a given
geometry instance each is a pure nullary function, hence a value.

`shared_ptr` identity is modelled by an optional address
(`Option Nat`, `none` being the null pointer) carried next to the
pointed-to geometry value; `computeLocalAABB`, a pure virtual whose
overrides live outside these headers, is a function parameter, and the
`CollisionObject` state counts how many times it was invoked.
-/

namespace HppFcl

/-- A C++ double as used by these headers: the not-a-number sentinel or
an exact rational value. -/
inductive FReal where
  | nan : FReal
  | val : ℚ → FReal
deriving DecidableEq

def FReal.add : FReal → FReal → FReal
  | FReal.val a, FReal.val b => FReal.val (a + b)
  | _, _ => FReal.nan

def FReal.sub : FReal → FReal → FReal
  | FReal.val a, FReal.val b => FReal.val (a - b)
  | _, _ => FReal.nan

def FReal.mul : FReal → FReal → FReal
  | FReal.val a, FReal.val b => FReal.val (a * b)
  | _, _ => FReal.nan

instance : Add FReal := ⟨FReal.add⟩

instance : Sub FReal := ⟨FReal.sub⟩

instance : Mul FReal := ⟨FReal.mul⟩

/-- The C++ comparison `a >= b`: false whenever an operand is
not-a-number. -/
def FReal.fge : FReal → FReal → Bool
  | FReal.val a, FReal.val b => decide (b ≤ a)
  | _, _ => false

/-- The C++ comparison `a <= b`: false whenever an operand is
not-a-number. -/
def FReal.fle : FReal → FReal → Bool
  | FReal.val a, FReal.val b => decide (a ≤ b)
  | _, _ => false

/-- The largest finite double, `std::numeric_limits<double>::max()`,
as an exact rational. -/
def dblMax : ℚ := (2 ^ 53 - 1) * 2 ^ 971

/-- A `Vec3f`. -/
structure Vec3 where
  x : FReal
  y : FReal
  z : FReal
deriving DecidableEq

def Vec3.add (a b : Vec3) : Vec3 := ⟨a.x + b.x, a.y + b.y, a.z + b.z⟩

def Vec3.sub (a b : Vec3) : Vec3 := ⟨a.x - b.x, a.y - b.y, a.z - b.z⟩

instance : Add Vec3 := ⟨Vec3.add⟩

instance : Sub Vec3 := ⟨Vec3.sub⟩

/-- `Vec3f::Constant(r)`. -/
def Vec3.const (r : FReal) : Vec3 := ⟨r, r, r⟩

/-- `Vec3f::Zero()`. -/
def Vec3.zero : Vec3 := ⟨FReal.val 0, FReal.val 0, FReal.val 0⟩

/-- A `Matrix3f`, entries in row-major reading order. -/
structure Matrix3 where
  m00 : FReal
  m01 : FReal
  m02 : FReal
  m10 : FReal
  m11 : FReal
  m12 : FReal
  m20 : FReal
  m21 : FReal
  m22 : FReal
deriving DecidableEq

/-- `Matrix3f::Constant(r)`. -/
def Matrix3.const (r : FReal) : Matrix3 := ⟨r, r, r, r, r, r, r, r, r⟩

/-- `Matrix3f::Identity()`. -/
def Matrix3.identity : Matrix3 :=
  ⟨FReal.val 1, FReal.val 0, FReal.val 0,
   FReal.val 0, FReal.val 1, FReal.val 0,
   FReal.val 0, FReal.val 0, FReal.val 1⟩

/-- Matrix-vector product `m * v`. -/
def Matrix3.mulVec (m : Matrix3) (v : Vec3) : Vec3 :=
  ⟨m.m00 * v.x + m.m01 * v.y + m.m02 * v.z,
   m.m10 * v.x + m.m11 * v.y + m.m12 * v.z,
   m.m20 * v.x + m.m21 * v.y + m.m22 * v.z⟩

/-- An `AABB` from `BV/AABB.h`: per-axis minimum and maximum corners. -/
structure AABB where
  min_ : Vec3
  max_ : Vec3
deriving DecidableEq

/-- Modelled from the spec: the free function `translate(aabb, t)` of
`BV/AABB.h` (not under src/) shifts both corners by `t`; the spec calls
this the local box "exactly translated by the transform's
translation". -/
def translate (a : AABB) (t : Vec3) : AABB := ⟨a.min_ + t, a.max_ + t⟩

/-- Modelled from the spec: `Transform3f` of `math/transform.h` (not
under src/) is a rigid transform, a rotation matrix together with a
translation vector. -/
structure Transform3f where
  R : Matrix3
  T : Vec3
deriving DecidableEq

/-- Modelled from the spec: `Transform3f::transform(v) = R * v + T`. -/
def Transform3f.transform (tf : Transform3f) (v : Vec3) : Vec3 :=
  tf.R.mulVec v + tf.T

/-- Modelled from the spec: the rotation-identity test guarding the
tight branch of `computeAABB`; the spec phrases it as "if the
transform's rotation is the identity", modelled as exact equality with
the identity matrix. -/
def Transform3f.rotationIsIdentity (tf : Transform3f) : Prop :=
  tf.R = Matrix3.identity

instance (tf : Transform3f) : Decidable tf.rotationIsIdentity := by
  unfold Transform3f.rotationIsIdentity; infer_instance

/-- The state of a `CollisionGeometry` instance together with the
values its (const, pure) overridable mass-property members return on
this instance. -/
structure CollisionGeometry where
  aabb_center : Vec3
  aabb_radius : FReal
  aabb_local : AABB
  cost_density : FReal
  threshold_occupied : FReal
  threshold_free : FReal
  computeCOM : Vec3
  computeMomentofInertia : Matrix3
  computeVolume : FReal
deriving DecidableEq

/-- Default result of the non-overridden `computeCOM`:
`Vec3f::Zero()`. -/
def defaultComputeCOM : Vec3 := Vec3.zero

/-- Default result of the non-overridden `computeMomentofInertia`:
`Matrix3f::Constant(NAN)`. -/
def defaultComputeMomentofInertia : Matrix3 := Matrix3.const FReal.nan

/-- Default result of the non-overridden `computeVolume`: `0`. -/
def defaultComputeVolume : FReal := FReal.val 0

/-- The default constructor `CollisionGeometry()` combined with the
default mass-property members, for a geometry that overrides none of
them.  The default constructor does not set `aabb_local` itself (its
value comes from the member's own default construction, outside this
header), so it is a parameter. -/
def CollisionGeometry.mkDefault (lb : AABB) : CollisionGeometry :=
  { aabb_center := Vec3.const (FReal.val dblMax)
  , aabb_radius := FReal.val (-1)
  , aabb_local := lb
  , cost_density := FReal.val 1
  , threshold_occupied := FReal.val 1
  , threshold_free := FReal.val 0
  , computeCOM := defaultComputeCOM
  , computeMomentofInertia := defaultComputeMomentofInertia
  , computeVolume := defaultComputeVolume }

/-- `CollisionGeometry::isOccupied()`:
`cost_density >= threshold_occupied`. -/
def CollisionGeometry.isOccupied (g : CollisionGeometry) : Bool :=
  FReal.fge g.cost_density g.threshold_occupied

/-- `CollisionGeometry::isFree()`: `cost_density <= threshold_free`. -/
def CollisionGeometry.isFree (g : CollisionGeometry) : Bool :=
  FReal.fle g.cost_density g.threshold_free

/-- `CollisionGeometry::computeMomentofInertiaRelatedToCOM()`, the
default parallel-axis implementation, entry by entry as in the
source. -/
def CollisionGeometry.computeMomentofInertiaRelatedToCOM
    (g : CollisionGeometry) : Matrix3 :=
  let C := g.computeMomentofInertia
  let com := g.computeCOM
  let V := g.computeVolume
  { m00 := C.m00 - V * (com.y * com.y + com.z * com.z)
  , m01 := C.m01 + V * com.x * com.y
  , m02 := C.m02 + V * com.x * com.z
  , m10 := C.m10 + V * com.y * com.x
  , m11 := C.m11 - V * (com.x * com.x + com.z * com.z)
  , m12 := C.m12 + V * com.y * com.z
  , m20 := C.m20 + V * com.z * com.x
  , m21 := C.m21 + V * com.z * com.y
  , m22 := C.m22 - V * (com.x * com.x + com.y * com.y) }

/-- The state of a `CollisionObject`.  `cgeomAddr` is the address held
by the `shared_ptr` (`none` is the null pointer) and `cgeom` the
pointed-to geometry's state; `localAABBComputations` counts the calls
made to the geometry's `computeLocalAABB`. -/
structure CollisionObject where
  cgeomAddr : Option Nat
  cgeom : CollisionGeometry
  t : Transform3f
  aabb : AABB
  localAABBComputations : Nat
deriving DecidableEq

/-- `CollisionObject::getAABB()`: the cached world-space box. -/
def CollisionObject.getAABB (o : CollisionObject) : AABB := o.aabb

/-- The value `CollisionObject::computeAABB()` stores into the cached
box, as a function of the geometry and the transform. -/
def computeAABBvalue (g : CollisionGeometry) (t : Transform3f) : AABB :=
  if t.R = Matrix3.identity then
    translate g.aabb_local t.T
  else
    let center := t.transform g.aabb_center
    let delta := Vec3.const g.aabb_radius
    ⟨center - delta, center + delta⟩

/-- `CollisionObject::computeAABB()`. -/
def CollisionObject.computeAABB (o : CollisionObject) : CollisionObject :=
  { o with aabb := computeAABBvalue o.cgeom o.t }

/-- `CollisionObject::init(compute_local_aabb)`.  `cl` is the effect of
the geometry's virtual `computeLocalAABB` (whose overrides live outside
these headers) on the geometry's state. -/
def CollisionObject.init (cl : CollisionGeometry → CollisionGeometry)
    (compute_local_aabb : Bool) (o : CollisionObject) : CollisionObject :=
  match o.cgeomAddr with
  | none => o
  | some _ =>
      let o1 :=
        if compute_local_aabb then
          { o with cgeom := cl o.cgeom,
                   localAABBComputations := o.localAABBComputations + 1 }
        else o
      o1.computeAABB

/-- The `CollisionObject` constructors: store the geometry reference
and the transform, then run `init`.  `a0` is the default-constructed
world box the constructor starts from (set by the `AABB` member's own
default construction, outside this header). -/
def mkCollisionObject (cl : CollisionGeometry → CollisionGeometry)
    (addr : Option Nat) (g : CollisionGeometry) (tf : Transform3f)
    (a0 : AABB) (compute_local_aabb : Bool) : CollisionObject :=
  CollisionObject.init cl compute_local_aabb
    { cgeomAddr := addr, cgeom := g, t := tf, aabb := a0,
      localAABBComputations := 0 }

/-- `CollisionObject::setRotation(R)`: delegates to
`t.setRotation(R)`, which replaces only the rotation part. -/
def CollisionObject.setRotation (o : CollisionObject) (R : Matrix3) :
    CollisionObject :=
  { o with t := { o.t with R := R } }

/-- `CollisionObject::setTranslation(T)`: delegates to
`t.setTranslation(T)`, which replaces only the translation part. -/
def CollisionObject.setTranslation (o : CollisionObject) (T : Vec3) :
    CollisionObject :=
  { o with t := { o.t with T := T } }

/-- `CollisionObject::setTransform(R, T)`. -/
def CollisionObject.setTransformRT (o : CollisionObject) (R : Matrix3)
    (T : Vec3) : CollisionObject :=
  { o with t := ⟨R, T⟩ }

/-- `CollisionObject::setTransform(tf)`. -/
def CollisionObject.setTransform (o : CollisionObject)
    (tf : Transform3f) : CollisionObject :=
  { o with t := tf }

/-- `CollisionObject::setCollisionGeometry(collision_geometry,
compute_local_aabb)`: when the incoming pointer differs from the stored
one, replace the reference and run `init`; otherwise do nothing. -/
def CollisionObject.setCollisionGeometry
    (cl : CollisionGeometry → CollisionGeometry) (addr : Option Nat)
    (g : CollisionGeometry) (compute_local_aabb : Bool)
    (o : CollisionObject) : CollisionObject :=
  if addr ≠ o.cgeomAddr then
    CollisionObject.init cl compute_local_aabb
      { o with cgeomAddr := addr, cgeom := g }
  else o

/-- The inline overload `distance(const CollisionObject*, const
CollisionObject*, DistanceRequest&, DistanceResult&)` of `distance.h`.
`distanceConst` is the const-request overload it delegates to (declared
in the header, defined elsewhere): it returns the scalar together with
the updated result.  The return packs the scalar, the updated request
and the updated result. -/
def distanceObjMut {Req Res : Type}
    (distanceConst :
      CollisionObject → CollisionObject → Req → Res → FReal × Res)
    (updateGuess : Req → Res → Req)
    (o1 o2 : CollisionObject) (request : Req) (result : Res) :
    FReal × Req × Res :=
  let res := distanceConst o1 o2 request result
  (res.1, updateGuess request res.2, res.2)

/-- The inline overload `distance(const CollisionGeometry*, const
Transform3f&, const CollisionGeometry*, const Transform3f&,
DistanceRequest&, DistanceResult&)` of `distance.h`. -/
def distanceGeomMut {Req Res : Type}
    (distanceConst :
      CollisionGeometry → Transform3f → CollisionGeometry → Transform3f →
      Req → Res → FReal × Res)
    (updateGuess : Req → Res → Req)
    (g1 : CollisionGeometry) (tf1 : Transform3f) (g2 : CollisionGeometry)
    (tf2 : Transform3f) (request : Req) (result : Res) :
    FReal × Req × Res :=
  let res := distanceConst g1 tf1 g2 tf2 request result
  (res.1, updateGuess request res.2, res.2)

/-- The caching facade `ComputeDistance`: `opConst` is the behaviour of
its const-request `operator()` (declared in the header, defined
elsewhere in terms of `run`). -/
structure ComputeDistance (Req Res : Type) where
  opConst : Transform3f → Transform3f → Req → Res → FReal × Res

/-- The inline mutable-request `ComputeDistance::operator()` of
`distance.h`: calls the const-request overload, then
`request.updateGuess(result)`. -/
def ComputeDistance.opMut {Req Res : Type} (c : ComputeDistance Req Res)
    (updateGuess : Req → Res → Req) (tf1 tf2 : Transform3f)
    (request : Req) (result : Res) : FReal × Req × Res :=
  let res := c.opConst tf1 tf2 request result
  (res.1, updateGuess request res.2, res.2)

/-- Spec-side definition: the axis-aligned bounding box of the sphere
with the given center and radius, "center ± radius along each axis". -/
def sphereBound (center : Vec3) (r : FReal) : AABB :=
  ⟨center - Vec3.const r, center + Vec3.const r⟩

theorem FReal.val_mul (a b : ℚ) :
    FReal.val a * FReal.val b = FReal.val (a * b) := rfl

theorem FReal.val_add (a b : ℚ) :
    FReal.val a + FReal.val b = FReal.val (a + b) := rfl

theorem FReal.add_val_zero (x : FReal) : x + FReal.val 0 = x := by
  cases x with
  | nan => rfl
  | val a => show FReal.val (a + 0) = FReal.val a; rw [add_zero]

theorem FReal.sub_val_zero (x : FReal) : x - FReal.val 0 = x := by
  cases x with
  | nan => rfl
  | val a => show FReal.val (a - 0) = FReal.val a; rw [sub_zero]

/-! Concrete instances used by witnesses and counterexamples. -/

/-- A small concrete geometry with finite fields. -/
def gSmall : CollisionGeometry :=
  { aabb_center := ⟨FReal.val 1, FReal.val 2, FReal.val 3⟩
  , aabb_radius := FReal.val 5
  , aabb_local := ⟨⟨FReal.val (-1), FReal.val 0, FReal.val 1⟩,
                   ⟨FReal.val 2, FReal.val 3, FReal.val 4⟩⟩
  , cost_density := FReal.val 1
  , threshold_occupied := FReal.val 1
  , threshold_free := FReal.val 0
  , computeCOM := Vec3.zero
  , computeMomentofInertia := Matrix3.const FReal.nan
  , computeVolume := FReal.val 0 }

/-- A concrete transform with identity rotation and nonzero
translation. -/
def tfIdRot : Transform3f :=
  ⟨Matrix3.identity, ⟨FReal.val 10, FReal.val 20, FReal.val 30⟩⟩

/-- A concrete world box distinct from anything `computeAABB` produces
for `gSmall` and `tfIdRot`. -/
def aBox78 : AABB := ⟨Vec3.const (FReal.val 7), Vec3.const (FReal.val 8)⟩

/-- A concrete object holding a non-null geometry reference at address
5. -/
def oC4 : CollisionObject := ⟨some 5, gSmall, tfIdRot, aBox78, 3⟩

/-- A concrete object holding a non-null geometry reference at address
1. -/
def oC6 : CollisionObject := ⟨some 1, gSmall, tfIdRot, aBox78, 0⟩

/-- A geometry whose thresholds are misconfigured
(`threshold_free > threshold_occupied`), making it simultaneously
occupied and free. -/
def gBoth : CollisionGeometry :=
  { gSmall with threshold_free := FReal.val 2 }

/-- A geometry with zero center of mass, finite inertia and a
not-a-number volume. -/
def gNanVolume : CollisionGeometry :=
  { gSmall with computeMomentofInertia := Matrix3.const (FReal.val 0),
                computeVolume := FReal.nan }

/-- A geometry with zero center of mass, finite inertia and finite
volume. -/
def gFiniteVolume : CollisionGeometry :=
  { gSmall with computeMomentofInertia := Matrix3.identity,
                computeVolume := FReal.val 2 }

/-- A concrete transform whose rotation (a permutation matrix) is not
the identity. -/
def tfPermRot : Transform3f :=
  ⟨⟨FReal.val 0, FReal.val 1, FReal.val 0,
    FReal.val 1, FReal.val 0, FReal.val 0,
    FReal.val 0, FReal.val 0, FReal.val 1⟩,
   ⟨FReal.val 4, FReal.val 5, FReal.val 6⟩⟩

/-! ## Claims -/

/-- C1: the rotation, translation and both full-transform setters of
`CollisionObject` leave the cached world-space box untouched, so
`getAABB` keeps returning the pre-mutation bound; an explicit
`computeAABB` call refreshes it from the current transform, and the
constructors (via `init`) store the freshly computed bound. -/
theorem transform_setters_leave_cached_aabb (o : CollisionObject)
    (R : Matrix3) (T : Vec3) (tf tf0 : Transform3f)
    (cl : CollisionGeometry → CollisionGeometry) (n : Nat)
    (g : CollisionGeometry) (a0 : AABB) (b : Bool) :
    (o.setRotation R).getAABB = o.getAABB
    ∧ (o.setTranslation T).getAABB = o.getAABB
    ∧ (o.setTransformRT R T).getAABB = o.getAABB
    ∧ (o.setTransform tf).getAABB = o.getAABB
    ∧ ((o.setTransform tf).computeAABB).getAABB
        = computeAABBvalue o.cgeom tf
    ∧ (mkCollisionObject cl (some n) g tf0 a0 b).aabb
        = computeAABBvalue (if b then cl g else g) tf0 := by
  refine ⟨rfl, rfl, rfl, rfl, rfl, ?_⟩
  cases b <;> rfl

/-- C2: when the transform's rotation is the identity, `computeAABB`
produces exactly the local box shifted by the translation, both corners
moved by `t`, with no slack. -/
theorem computeAABB_identity_rotation_exact (g : CollisionGeometry)
    (tf : Transform3f) (h : tf.R = Matrix3.identity) :
    computeAABBvalue g tf
      = ⟨g.aabb_local.min_ + tf.T, g.aabb_local.max_ + tf.T⟩ := by
  unfold computeAABBvalue
  rw [if_pos h]
  rfl

theorem computeAABB_identity_rotation_exact_witness :
    computeAABBvalue gSmall tfIdRot
      = ⟨gSmall.aabb_local.min_ + tfIdRot.T,
         gSmall.aabb_local.max_ + tfIdRot.T⟩ :=
  computeAABB_identity_rotation_exact gSmall tfIdRot rfl

/-- C3: when the transform's rotation is not the identity,
`computeAABB` produces exactly the bounding box of the sphere centered
at the transformed local-sphere center `R * aabb_center + T` with the
unchanged local radius — neither tighter nor looser than that
formula. -/
theorem computeAABB_rotation_conservative (g : CollisionGeometry)
    (tf : Transform3f) (h : tf.R ≠ Matrix3.identity) :
    computeAABBvalue g tf
      = sphereBound (tf.R.mulVec g.aabb_center + tf.T) g.aabb_radius := by
  unfold computeAABBvalue
  rw [if_neg h]
  rfl

theorem computeAABB_rotation_conservative_witness :
    tfPermRot.R ≠ Matrix3.identity
    ∧ computeAABBvalue gSmall tfPermRot
        = sphereBound (tfPermRot.R.mulVec gSmall.aabb_center + tfPermRot.T)
            gSmall.aabb_radius :=
  ⟨by decide, computeAABB_rotation_conservative gSmall tfPermRot (by decide)⟩

/-- C7: each mutable-request overload — the two inline `distance` free
functions and `ComputeDistance::operator()` — returns the same scalar
and the same result as the corresponding const-request overload on the
same arguments, and its outgoing request is exactly
`updateGuess request result` on the post-computation result. -/
theorem mutable_request_overloads_equiv {Req Res : Type}
    (updateGuess : Req → Res → Req)
    (dObj : CollisionObject → CollisionObject → Req → Res → FReal × Res)
    (dGeom : CollisionGeometry → Transform3f → CollisionGeometry →
      Transform3f → Req → Res → FReal × Res)
    (c : ComputeDistance Req Res)
    (o1 o2 : CollisionObject) (g1 g2 : CollisionGeometry)
    (tf1 tf2 : Transform3f) (request : Req) (result : Res) :
    ((distanceObjMut dObj updateGuess o1 o2 request result).1
        = (dObj o1 o2 request result).1
      ∧ (distanceObjMut dObj updateGuess o1 o2 request result).2.1
          = updateGuess request (dObj o1 o2 request result).2
      ∧ (distanceObjMut dObj updateGuess o1 o2 request result).2.2
          = (dObj o1 o2 request result).2)
    ∧ ((distanceGeomMut dGeom updateGuess g1 tf1 g2 tf2 request result).1
        = (dGeom g1 tf1 g2 tf2 request result).1
      ∧ (distanceGeomMut dGeom updateGuess g1 tf1 g2 tf2 request result).2.1
          = updateGuess request (dGeom g1 tf1 g2 tf2 request result).2
      ∧ (distanceGeomMut dGeom updateGuess g1 tf1 g2 tf2 request result).2.2
          = (dGeom g1 tf1 g2 tf2 request result).2)
    ∧ ((c.opMut updateGuess tf1 tf2 request result).1
        = (c.opConst tf1 tf2 request result).1
      ∧ (c.opMut updateGuess tf1 tf2 request result).2.1
          = updateGuess request (c.opConst tf1 tf2 request result).2
      ∧ (c.opMut updateGuess tf1 tf2 request result).2.2
          = (c.opConst tf1 tf2 request result).2) :=
  ⟨⟨rfl, rfl, rfl⟩, ⟨rfl, rfl, rfl⟩, rfl, rfl, rfl⟩

/-- C4 counterexample: constructing an object with a null geometry
reference does not fail fast — it completes normally, performs zero
local-bound computations, and leaves the world box at its
default-constructed value (here one that a real bound computation would
have replaced), i.e. bound computation is silently skipped. -/
theorem null_geometry_construction_not_failfast_cex :
    mkCollisionObject id none gSmall tfIdRot aBox78 true
      = { cgeomAddr := none, cgeom := gSmall, t := tfIdRot, aabb := aBox78,
          localAABBComputations := 0 }
    ∧ aBox78 ≠ computeAABBvalue gSmall tfIdRot :=
  ⟨rfl, by
    norm_num [aBox78, gSmall, tfIdRot, computeAABBvalue, translate,
      Vec3.const, HAdd.hAdd, Add.add, Vec3.add, FReal.add,
      Matrix3.identity]⟩

/-- C4 amended: with a null geometry reference, the constructors and
`setCollisionGeometry` complete without error and silently skip both
the local-bound and the world-bound computation (the `if (cgeom)` guard
in `init` makes the whole body a no-op). -/
theorem null_geometry_silent_skip
    (cl : CollisionGeometry → CollisionGeometry) (g : CollisionGeometry)
    (tf : Transform3f) (a0 : AABB) (b1 b2 : Bool) (o : CollisionObject)
    (n : Nat) (h : o.cgeomAddr = some n) :
    mkCollisionObject cl none g tf a0 b1
      = { cgeomAddr := none, cgeom := g, t := tf, aabb := a0,
          localAABBComputations := 0 }
    ∧ CollisionObject.setCollisionGeometry cl none g b2 o
      = { o with cgeomAddr := none, cgeom := g } := by
  constructor
  · rfl
  · have h2 : (none : Option Nat) ≠ o.cgeomAddr := by simp [h]
    unfold CollisionObject.setCollisionGeometry
    rw [if_pos h2]
    rfl

theorem null_geometry_silent_skip_witness :
    (mkCollisionObject id none gSmall tfIdRot aBox78 true
        = { cgeomAddr := none, cgeom := gSmall, t := tfIdRot, aabb := aBox78,
            localAABBComputations := 0 })
    ∧ CollisionObject.setCollisionGeometry id none gSmall false oC4
        = { oC4 with cgeomAddr := none, cgeom := gSmall } :=
  null_geometry_silent_skip id gSmall tfIdRot aBox78 true false oC4 5 rfl

/-- C5: `isOccupied` holds exactly when the cost density is at least
the occupied threshold and `isFree` exactly when it is at most the free
threshold (so equality with a threshold yields true), and since no
ordering between the thresholds is enforced there is a geometry that is
simultaneously occupied and free. -/
theorem occupancy_threshold_semantics (g : CollisionGeometry)
    (c tO tF : ℚ) (hc : g.cost_density = FReal.val c)
    (hO : g.threshold_occupied = FReal.val tO)
    (hF : g.threshold_free = FReal.val tF) :
    (g.isOccupied = true ↔ tO ≤ c)
    ∧ (g.isFree = true ↔ c ≤ tF)
    ∧ ∃ gB : CollisionGeometry, gB.isOccupied = true ∧ gB.isFree = true := by
  refine ⟨?_, ?_, ⟨gBoth, by decide, by decide⟩⟩
  · simp [CollisionGeometry.isOccupied, hc, hO, FReal.fge]
  · simp [CollisionGeometry.isFree, hc, hF, FReal.fle]

theorem occupancy_threshold_semantics_witness :
    ((gSmall.isOccupied = true ↔ (1 : ℚ) ≤ 1)
     ∧ (gSmall.isFree = true ↔ (1 : ℚ) ≤ 0)
     ∧ ∃ gB : CollisionGeometry,
         gB.isOccupied = true ∧ gB.isFree = true) :=
  occupancy_threshold_semantics gSmall 1 1 0 rfl rfl rfl

/-- C6 counterexample: replacing the stored geometry reference with the
null pointer — which differs by pointer identity from the current one —
performs the replacement but recomputes neither the local bound (the
flag is set, yet the computation count is unchanged) nor the world
bound (the cached box stays at a value a recomputation would have
replaced), refuting the claimed "recomputes bounds iff the pointer
differs". -/
theorem setCollisionGeometry_null_differing_cex :
    none ≠ oC6.cgeomAddr
    ∧ (CollisionObject.setCollisionGeometry id none gSmall true
        oC6).cgeomAddr = none
    ∧ (CollisionObject.setCollisionGeometry id none gSmall true
        oC6).localAABBComputations = oC6.localAABBComputations
    ∧ (CollisionObject.setCollisionGeometry id none gSmall true oC6).aabb
        = oC6.aabb
    ∧ oC6.aabb ≠ computeAABBvalue gSmall oC6.t := by
  refine ⟨by decide, rfl, rfl, rfl, ?_⟩
  norm_num [oC6, aBox78, gSmall, tfIdRot, computeAABBvalue, translate,
    Vec3.const, HAdd.hAdd, Add.add, Vec3.add, FReal.add, Matrix3.identity]

/-- C6 amended: `setCollisionGeometry` replaces the stored reference
exactly when the incoming pointer differs from the current one; on
replacement with a non-null reference it recomputes the local bound
precisely when the flag is set and then recomputes the world bound; on
replacement with the null reference it skips both computations; with
the identical reference it is a no-op, performing zero additional
local-bound computations. -/
theorem setCollisionGeometry_pointer_identity
    (cl : CollisionGeometry → CollisionGeometry) (g : CollisionGeometry)
    (b : Bool) (o : CollisionObject) (n : Nat) :
    (o.cgeomAddr ≠ some n →
      CollisionObject.setCollisionGeometry cl (some n) g b o
        = { o with cgeomAddr := some n,
                   cgeom := if b then cl g else g,
                   aabb := computeAABBvalue (if b then cl g else g) o.t,
                   localAABBComputations :=
                     if b then o.localAABBComputations + 1
                     else o.localAABBComputations })
    ∧ (o.cgeomAddr ≠ none →
        CollisionObject.setCollisionGeometry cl none g b o
          = { o with cgeomAddr := none, cgeom := g })
    ∧ CollisionObject.setCollisionGeometry cl o.cgeomAddr g b o = o := by
  refine ⟨?_, ?_, ?_⟩
  · intro h
    have h2 : some n ≠ o.cgeomAddr := fun hc => h hc.symm
    unfold CollisionObject.setCollisionGeometry
    rw [if_pos h2]
    cases b <;> rfl
  · intro h
    have h2 : (none : Option Nat) ≠ o.cgeomAddr := fun hc => h hc.symm
    unfold CollisionObject.setCollisionGeometry
    rw [if_pos h2]
    rfl
  · unfold CollisionObject.setCollisionGeometry
    exact if_neg (fun hc => hc rfl)

theorem setCollisionGeometry_pointer_identity_witness :
    (CollisionObject.setCollisionGeometry id (some 2) gSmall true oC6
        = { oC6 with cgeomAddr := some 2, cgeom := gSmall,
                     aabb := computeAABBvalue gSmall oC6.t,
                     localAABBComputations :=
                       oC6.localAABBComputations + 1 })
    ∧ (CollisionObject.setCollisionGeometry id none gSmall true oC6
        = { oC6 with cgeomAddr := none, cgeom := gSmall })
    ∧ CollisionObject.setCollisionGeometry id oC6.cgeomAddr gSmall true oC6
        = oC6 :=
  ⟨(setCollisionGeometry_pointer_identity id gSmall true oC6 2).1 (by decide),
   (setCollisionGeometry_pointer_identity id gSmall true oC6 2).2.1
     (by decide),
   (setCollisionGeometry_pointer_identity id gSmall true oC6 2).2.2⟩

/-- C8 counterexample: a geometry whose center of mass is the origin
but whose volume is the not-a-number sentinel: the parallel-axis
default returns the all-sentinel matrix, which differs from its (zero)
inertia about the origin. -/
theorem inertiaRelatedToCOM_nan_volume_cex :
    gNanVolume.computeCOM = Vec3.zero
    ∧ gNanVolume.computeMomentofInertiaRelatedToCOM
        ≠ gNanVolume.computeMomentofInertia :=
  ⟨rfl, by decide⟩

/-- C8 amended: for every geometry whose center of mass is `(0,0,0)`
and whose volume is not the not-a-number sentinel, the default
parallel-axis `computeMomentofInertiaRelatedToCOM` returns, entry for
entry and exactly, the matrix returned by `computeMomentofInertia`. -/
theorem inertiaRelatedToCOM_zero_com (g : CollisionGeometry) (v : ℚ)
    (hcom : g.computeCOM = Vec3.zero)
    (hV : g.computeVolume = FReal.val v) :
    g.computeMomentofInertiaRelatedToCOM = g.computeMomentofInertia := by
  unfold CollisionGeometry.computeMomentofInertiaRelatedToCOM
  rw [hcom, hV]
  simp [Vec3.zero, FReal.val_mul, FReal.val_add, FReal.sub_val_zero,
    FReal.add_val_zero]

theorem inertiaRelatedToCOM_zero_com_witness :
    gFiniteVolume.computeMomentofInertiaRelatedToCOM
      = gFiniteVolume.computeMomentofInertia :=
  inertiaRelatedToCOM_zero_com gFiniteVolume 2 rfl rfl

/-- C9: a geometry overriding none of the mass-property operations has
zero center of mass, zero volume, the all-sentinel inertia about the
origin, and the default parallel-axis inertia about the center of mass
is again the all-sentinel matrix — the not-a-number marker propagates
through the arithmetic instead of causing a failure. -/
theorem default_mass_properties_propagate (lb : AABB) :
    (CollisionGeometry.mkDefault lb).computeCOM = Vec3.zero
    ∧ (CollisionGeometry.mkDefault lb).computeVolume = FReal.val 0
    ∧ (CollisionGeometry.mkDefault lb).computeMomentofInertia
        = Matrix3.const FReal.nan
    ∧ (CollisionGeometry.mkDefault lb).computeMomentofInertiaRelatedToCOM
        = Matrix3.const FReal.nan :=
  ⟨rfl, rfl, rfl, rfl⟩

/-- C10: a default-constructed geometry has cost density 1, occupied
threshold 1 and free threshold 0 — hence `isOccupied` is true and
`isFree` false before any configuration — and marks its not-yet-computed
local bound with radius −1 and a center whose every coordinate is the
maximum representable scalar. -/
theorem default_constructor_state (lb : AABB) :
    (CollisionGeometry.mkDefault lb).cost_density = FReal.val 1
    ∧ (CollisionGeometry.mkDefault lb).threshold_occupied = FReal.val 1
    ∧ (CollisionGeometry.mkDefault lb).threshold_free = FReal.val 0
    ∧ (CollisionGeometry.mkDefault lb).isOccupied = true
    ∧ (CollisionGeometry.mkDefault lb).isFree = false
    ∧ (CollisionGeometry.mkDefault lb).aabb_radius = FReal.val (-1)
    ∧ (CollisionGeometry.mkDefault lb).aabb_center
        = Vec3.const (FReal.val dblMax) := by
  exact ⟨rfl, rfl, rfl, rfl, rfl, rfl, rfl⟩

end HppFcl
